import Mathlib

/-!
Verification development for the CSV column type-inference engine
(`api/views.py`): the table validator (`validate_dataframe`), the
per-column classifier and inference engine (`infer_and_convert_types`),
the upload validator (`validate_file`) and the orchestration in
`process_file`.

Cells are modelled as `Option String` (`none` is a null/NaN cell, as
produced by the CSV loader for empty fields).  The external pandas
parsers `pd.to_numeric` / `float` and `pd.to_datetime` are modelled by
executable parsers `parseNum` (decimal literals with optional sign,
fraction and exponent, returning the exact value in decimal
mantissa/exponent form) and `parseDate` (ISO `YYYY-MM-DD` recognition).
Python's `round(x, 2)` is modelled by exact rational rounding to two
decimals with ties to even.
-/

namespace CsvApi

/-- Numeric value of a list of decimal digit characters. -/
def digitsToNat (ds : List Char) : Nat :=
  ds.foldl (fun n d => 10 * n + (d.toNat - 48)) 0

/-- Parses the exponent suffix of a numeric literal: an optional sign
followed by at least one digit, consuming the whole rest of the input.
`m` and `e` are the mantissa and decimal exponent already parsed. -/
def parseExpPart (m : ℤ) (e : ℤ) (s : List Char) : Option (ℤ × ℤ) :=
  let p := match s with
    | '-' :: r => (true, r)
    | '+' :: r => (false, r)
    | r => (false, r)
  let q := p.2.span Char.isDigit
  if q.1 = [] ∨ q.2 ≠ [] then none
  else if p.1 then some (m, e - digitsToNat q.1)
  else some (m, e + digitsToNat q.1)

/-- Models the numeric parse performed by `pd.to_numeric` / Python's
`float` on a raw cell: optional sign, integer part, optional fractional
part, optional exponent.  The exact parsed value is returned in decimal
mantissa/exponent form: `some (m, e)` denotes the number `m * 10 ^ e`
(see `ratValue`); `none` means the cell is not a numeric literal. -/
def parseNum (s : String) : Option (ℤ × ℤ) :=
  let p := match s.data with
    | '-' :: r => ((-1 : ℤ), r)
    | '+' :: r => ((1 : ℤ), r)
    | r => ((1 : ℤ), r)
  let q := p.2.span Char.isDigit
  let intPart := q.1
  match q.2 with
  | [] =>
    if intPart = [] then none else some (p.1 * digitsToNat intPart, 0)
  | '.' :: r3 =>
    let f := r3.span Char.isDigit
    if intPart = [] ∧ f.1 = [] then none
    else
      let m : ℤ := p.1 * digitsToNat (intPart ++ f.1)
      let e : ℤ := -(f.1.length : ℤ)
      match f.2 with
      | [] => some (m, e)
      | 'e' :: r5 => parseExpPart m e r5
      | 'E' :: r5 => parseExpPart m e r5
      | _ => none
  | 'e' :: r3 =>
    if intPart = [] then none
    else parseExpPart (p.1 * digitsToNat intPart) 0 r3
  | 'E' :: r3 =>
    if intPart = [] then none
    else parseExpPart (p.1 * digitsToNat intPart) 0 r3
  | _ => none

/-- The rational number denoted by a numeric parse result. -/
def ratValue (p : ℤ × ℤ) : ℚ :=
  (p.1 : ℚ) * 10 ^ p.2

/-- Models Python's `float.is_integer` on a parsed value: `m * 10 ^ e`
has zero fractional part exactly when `e ≥ 0` or `10 ^ (-e)` divides
`m`. -/
def isIntegerVal (p : ℤ × ℤ) : Bool :=
  if 0 ≤ p.2 then true
  else p.1 % (10 : ℤ) ^ (-p.2).toNat = 0

/-- Models the external `pd.to_datetime` parser at the interface the
engine uses it: recognises ISO `YYYY-MM-DD` date literals (four digit
year, month `01`-`12`, day `01`-`31`). -/
def parseDate (s : String) : Bool :=
  match s.data with
  | [y1, y2, y3, y4, '-', m1, m2, '-', d1, d2] =>
    y1.isDigit && y2.isDigit && y3.isDigit && y4.isDigit &&
    m1.isDigit && m2.isDigit && d1.isDigit && d2.isDigit &&
    (let m := digitsToNat [m1, m2]
     let d := digitsToNat [d1, d2]
     1 ≤ m && m ≤ 12 && 1 ≤ d && d ≤ 31)
  | _ => false

/-- Semantic column kinds assigned by the classifier, including the
`error` kind recorded when classification of a column raises. -/
inductive Kind where
  | integer
  | float
  | datetime
  | category
  | text
  | error
deriving DecidableEq, Repr

/-- One column of the loaded table: the storage dtype tag
(`str(df[column].dtype)`) and the cell values, `none` for null/NaN. -/
structure Column where
  dtype : String
  cells : List (Option String)
deriving DecidableEq, Repr

/-- Per-column classification record: mirrors the dict built for each
column by `infer_and_convert_types`; fields absent in the Python dict
(for `error` entries, and `unique_ratio` outside category/text) are
`none`. -/
structure ColResult where
  kind : Kind
  sample_values : List String
  original_type : Option String
  null_count : Option Nat
  unique_count : Option Nat
  unique_ratio : Option ℚ
  err_msg : Option String
deriving DecidableEq, Repr

/-- A successful (non-error) classification record. -/
def mkOk (k : Kind) (sv : List String) (ot : String) (nc uc : Nat)
    (ur : Option ℚ) : ColResult :=
  ⟨k, sv, some ot, some nc, some uc, ur, none⟩

/-- The record stored for a column whose classification raised:
`type = error` plus the exception message, no other fields. -/
def mkErr (msg : String) : ColResult :=
  ⟨Kind.error, [], none, none, none, none, some msg⟩

/-- The non-null cells of a column, in original order
(`df[column].dropna()`). -/
def nonNull (c : Column) : List String :=
  c.cells.filterMap id

/-- First SAMPLE_SIZE (5) non-null values
(`df[column].dropna().head(5).tolist()`). -/
def sampleValues (c : Column) : List String :=
  (nonNull c).take 5

/-- Number of null cells (`df[column].isna().sum()`). -/
def nullCount (c : Column) : Nat :=
  (c.cells.filter (fun x => x.isNone)).length

/-- Number of distinct non-null values (`df[column].nunique()`). -/
def uniqueCount (c : Column) : Nat :=
  (nonNull c).dedup.length

/-- Number of distinct values counting all nulls as one shared value
(`len(df[column].unique())`: pandas `unique` keeps a single NaN entry). -/
def uniqueInclNull (c : Column) : Nat :=
  (nonNull c).dedup.length + (if c.cells.any (fun x => x.isNone) then 1 else 0)

/-- Rounding to the nearest integer with ties to even, as Python's
`round` does on exact values. -/
def roundHalfEven (q : ℚ) : ℤ :=
  let f := ⌊q⌋
  let r := q - (f : ℚ)
  if r < 1 / 2 then f
  else if 1 / 2 < r then f + 1
  else if f % 2 = 0 then f else f + 1

/-- Models Python's `round(x, 2)` on exact rationals. -/
def round2 (q : ℚ) : ℚ :=
  (roundHalfEven (q * 100) : ℚ) / 100

/-- The numeric attempt succeeds: `pd.to_numeric(df[column],
errors='raise')` does not raise, i.e. every non-null cell parses as a
number. -/
def numericOK (c : Column) : Bool :=
  (nonNull c).all (fun s => (parseNum s).isSome)

/-- The integrality test of the numeric branch:
`all(float(x).is_integer() for x in df[column].dropna())` — vacuously
true when the column has no non-null cell. -/
def allIntegral (c : Column) : Bool :=
  (nonNull c).all (fun s =>
    match parseNum s with
    | some p => isIntegerVal p
    | none => true)

/-- The datetime attempt succeeds: `pd.to_datetime(df[column],
errors='raise')` does not raise, i.e. every non-null cell parses as a
date. -/
def datetimeOK (c : Column) : Bool :=
  (nonNull c).all parseDate

/-- The per-column classifier: the body of the per-column loop of
`infer_and_convert_types` (views.py lines 80-140).  Branch order is the
code's: numeric attempt, then datetime attempt, then the
categorical/text fallback with
`unique_ratio = len(df[column].unique()) / len(df[column])`. -/
def classifyColumn (c : Column) : ColResult :=
  let sv := sampleValues c
  if numericOK c then
    mkOk (if allIntegral c then Kind.integer else Kind.float) sv c.dtype
      (nullCount c) (uniqueCount c) none
  else if datetimeOK c then
    mkOk Kind.datetime sv c.dtype (nullCount c) (uniqueCount c) none
  else
    let ur : ℚ := (uniqueInclNull c : ℚ) / (c.cells.length : ℚ)
    if ur < 1 / 2 then
      mkOk Kind.category sv c.dtype (nullCount c) (uniqueCount c) (some (round2 ur))
    else
      mkOk Kind.text sv c.dtype (nullCount c) (uniqueCount c) (some (round2 ur))

/-- The loaded table: named columns in order, the row count, and the
rectangularity invariant (every column has one cell per row). -/
structure DataFrame where
  cols : List (String × Column)
  nrows : Nat
  uniform : ∀ p ∈ cols, p.2.cells.length = nrows

def MAX_COLUMNS : Nat := 100

def MAX_ROWS : Nat := 1000000

def SAMPLE_SIZE : Nat := 5

def MAX_FILE_SIZE : Nat := 10 * 1024 * 1024

/-- Structural validation of the loaded table (`validate_dataframe`):
returns the `(is_valid, error_message)` pair of the Python method.
`df.empty` is pandas semantics: some axis has length 0. -/
def validate_dataframe (df : DataFrame) : Bool × Option String :=
  if df.nrows = 0 ∨ df.cols.length = 0 then
    (false, some "The file is empty")
  else if df.cols.length > MAX_COLUMNS then
    (false, some "Too many columns. Maximum allowed: 100")
  else if df.nrows > MAX_ROWS then
    (false, some "Too many rows. Maximum allowed: 1000000")
  else if ¬ (df.cols.map Prod.fst).Nodup then
    (false, some "Duplicate column names found")
  else
    (true, none)

/-- The per-column try/except boundary of the engine loop: a successful
classification is recorded as is, a raised exception is recorded as an
`error`-kind entry with the exception message. -/
def applyCatch (f : Column → Except String ColResult) (c : Column) : ColResult :=
  match f c with
  | Except.ok r => r
  | Except.error e => mkErr e

/-- The engine loop over an arbitrary (possibly failing) per-column
classifier: iterates columns in table order, isolating each column
behind `applyCatch`. -/
def inferWith (f : Column → Except String ColResult) (df : DataFrame) :
    List (String × ColResult) :=
  df.cols.map (fun p => (p.1, applyCatch f p.2))

/-- The type-inference engine (`infer_and_convert_types`): the engine
loop instantiated with the actual classifier, which in this model never
raises. -/
def infer_and_convert_types (df : DataFrame) : List (String × ColResult) :=
  inferWith (fun c => Except.ok (classifyColumn c)) df

/-- Index of the last occurrence of a character in a list, if any. -/
def lastIdxOf (c : Char) (s : List Char) : Option Nat :=
  s.enum.foldl (fun acc p => if p.2 = c then some p.1 else acc) none

/-- Extension part of `os.path.splitext` (posix rules, as character
list): everything from the last dot after the last path separator,
unless the whole leading part of the basename up to that dot consists of
dots (a leading-dot name such as `.csv` has no extension). -/
def splitextExtChars (s : List Char) : List Char :=
  match lastIdxOf '.' s with
  | none => []
  | some d =>
    let fStart := match lastIdxOf '/' s with
      | none => 0
      | some sep => sep + 1
    if fStart ≤ d then
      if ((s.drop fStart).take (d - fStart)).all (fun ch => ch = '.') then []
      else s.drop d
    else []

/-- Extension of a file name: `os.path.splitext(name)[1]`. -/
def splitextExt (name : String) : String :=
  String.mk (splitextExtChars name.data)

/-- Models Python's `str.lower()` on an extension: character-wise
lower-casing. -/
def strLower (s : String) : String :=
  String.mk (s.data.map Char.toLower)

/-- Uploaded file metadata as seen by `validate_file`. -/
structure FileObj where
  name : String
  size : Nat
deriving DecidableEq, Repr

def ALLOWED_EXTENSIONS : List String := [".csv"]

/-- Upload validation (`validate_file`): presence, then lower-cased
extension membership in ALLOWED_EXTENSIONS, then size cap; returns the
`(is_valid, error_message)` pair of the Python method. -/
def validate_file (file : Option FileObj) : Bool × Option String :=
  match file with
  | none => (false, some "No file provided")
  | some f =>
    let ext := strLower (splitextExt f.name)
    if ext ∉ ALLOWED_EXTENSIONS then
      (false, some "Invalid file type. Allowed types: .csv")
    else if f.size > MAX_FILE_SIZE then
      (false, some "File size exceeds 10MB limit")
    else
      (true, none)

/-- The success payload assembled by `process_file` (views.py lines
202-211). -/
structure Payload where
  file_name : String
  file_size : Nat
  total_rows : Nat
  total_columns : Nat
  column_types : List (String × ColResult)
  columns : List String
  sample_data : List (List (String × Option String))
deriving DecidableEq, Repr

/-- Outcome of processing a loaded table. -/
inductive Response where
  | success (p : Payload)
  | badRequest (msg : String)
deriving DecidableEq, Repr

/-- First SAMPLE_SIZE rows of the table as records keyed by column name
(`df.head(5).to_dict(orient='records')`). -/
def sampleRows (df : DataFrame) : List (List (String × Option String)) :=
  (List.range (min SAMPLE_SIZE df.nrows)).map
    (fun r => df.cols.map (fun p => (p.1, p.2.cells.getD r none)))

/-- The post-load portion of `process_file` (views.py lines 190-213),
over an arbitrary inference engine: validate the table, rejecting on
failure before the engine runs, else assemble the success payload. -/
def processTableWith (infer : DataFrame → List (String × ColResult))
    (fname : String) (fsize : Nat) (df : DataFrame) : Response :=
  let v := validate_dataframe df
  if v.1 then
    Response.success ⟨fname, fsize, df.nrows, df.cols.length,
      infer df, df.cols.map Prod.fst, sampleRows df⟩
  else
    Response.badRequest (v.2.getD "")

/-- The post-load portion of `process_file` with the actual engine. -/
def process_file (fname : String) (fsize : Nat) (df : DataFrame) : Response :=
  processTableWith infer_and_convert_types fname fsize df

/-- Follows the spec's words, for comparison with the implementation:
`unique_ratio` as the number of distinct non-null values divided by the
number of total cells. -/
def specUniqueRatio (c : Column) : ℚ :=
  (uniqueCount c : ℚ) / (c.cells.length : ℚ)

/-- A two-row column that is entirely null. -/
def colAllNull : Column := ⟨"float64", [none, none]⟩

/-- A one-column table whose single column is entirely null. -/
def dfAllNull : DataFrame := ⟨[("a", colAllNull)], 2, by decide⟩

/-- Text column with repeated values and nulls: 1 distinct non-null
value, 2 null cells, 4 cells total. -/
def colC2 : Column := ⟨"object", [some "a", some "a", none, none]⟩

/-- Text column with repeated values and nulls: 1 distinct non-null
value, 2 null cells, 4 cells total. -/
def colC3 : Column := ⟨"object", [some "x", some "x", none, none]⟩

/-- A column of integral numeric literals. -/
def colInt : Column := ⟨"int64", [some "1", some "2", some "3"]⟩

/-- A column of numeric literals with one fractional value. -/
def colFloat : Column := ⟨"object", [some "1", some "2.5", some "3"]⟩

/-- A column of ISO date literals. -/
def colDate : Column := ⟨"object", [some "2023-01-01", some "2023-02-01"]⟩

/-- A column of plain text values. -/
def colText : Column := ⟨"object", [some "apple", some "banana", some "cherry"]⟩

/-- A valid two-column, three-row table. -/
def dfTwo : DataFrame := ⟨[("a", colInt), ("b", colText)], 3, by decide⟩

/-- A one-row table with duplicate column names. -/
def dfDup : DataFrame :=
  ⟨[("a", ⟨"object", [some "1"]⟩), ("a", ⟨"object", [some "2"]⟩),
    ("b", ⟨"object", [some "3"]⟩)], 1, by decide⟩

/-- A one-row table with 101 identically-named columns, exceeding
MAX_COLUMNS. -/
def dfWide : DataFrame :=
  ⟨List.replicate 101 ("a", ⟨"object", [some "x"]⟩), 1, by
    intro p hp
    rw [List.eq_of_mem_replicate hp]
    rfl⟩

/-- Null and non-null cells partition a column. -/
theorem filterMap_id_length_add (l : List (Option String)) :
    (l.filterMap id).length + (l.filter (fun x => x.isNone)).length = l.length := by
  induction l with
  | nil => rfl
  | cons x xs ih => cases x <;> simp [List.filter_cons] <;> omega

/-- A column with some null cell has positive null count. -/
theorem nullCount_pos_of_any (c : Column)
    (h : c.cells.any (fun x => x.isNone) = true) : 1 ≤ nullCount c := by
  rw [List.any_eq_true] at h
  obtain ⟨x, hx, hxn⟩ := h
  rw [nullCount]
  exact List.length_pos_of_mem (List.mem_filter.mpr ⟨hx, hxn⟩)

/-- The distinct-value count used by the fallback never exceeds the
cell count. -/
theorem uniqueInclNull_le (c : Column) : uniqueInclNull c ≤ c.cells.length := by
  have h1 : (nonNull c).dedup.length ≤ (nonNull c).length :=
    (List.dedup_sublist _).length_le
  have h2 : (nonNull c).length + nullCount c = c.cells.length := by
    rw [nonNull, nullCount]
    exact filterMap_id_length_add c.cells
  rw [uniqueInclNull]
  by_cases ha : c.cells.any (fun x => x.isNone) = true
  · have h3 := nullCount_pos_of_any c ha
    rw [if_pos ha]
    omega
  · rw [if_neg ha]
    omega

/-- Rounding half-to-even of a nonnegative rational is nonnegative. -/
theorem roundHalfEven_nonneg (q : ℚ) (h : 0 ≤ q) : 0 ≤ roundHalfEven q := by
  rw [roundHalfEven]
  have hf : 0 ≤ ⌊q⌋ := Int.floor_nonneg.mpr h
  split_ifs <;> omega

/-- Rounding half-to-even never overshoots an integer upper bound. -/
theorem roundHalfEven_le_of_le (q : ℚ) (n : ℤ) (h : q ≤ n) :
    roundHalfEven q ≤ n := by
  rw [roundHalfEven]
  have hf : ⌊q⌋ ≤ n := by
    have h2 := Int.floor_mono h
    rwa [Int.floor_intCast] at h2
  split_ifs with h1 h2 h3
  · exact hf
  · have hr : (1 : ℚ) / 2 ≤ q - (⌊q⌋ : ℚ) := not_lt.mp h1
    have hfl : (⌊q⌋ : ℚ) < (n : ℚ) := by
      have := Int.floor_le q
      linarith
    have : ⌊q⌋ < n := by exact_mod_cast hfl
    omega
  · exact hf
  · have hr : (1 : ℚ) / 2 ≤ q - (⌊q⌋ : ℚ) := not_lt.mp h1
    have hfl : (⌊q⌋ : ℚ) < (n : ℚ) := by linarith
    have : ⌊q⌋ < n := by exact_mod_cast hfl
    omega

/-- Rounding half-to-even fixes integers. -/
theorem roundHalfEven_intCast (n : ℤ) : roundHalfEven (n : ℚ) = n := by
  rw [roundHalfEven]
  simp

/-- Evaluation rule for two-decimal rounding when one hundred times the
argument is an integer. -/
theorem round2_eval (a : ℤ) (q : ℚ) (h : q * 100 = (a : ℚ)) :
    round2 q = (a : ℚ) / 100 := by
  rw [round2, h, roundHalfEven_intCast]

/-- Two-decimal rounding maps the unit interval into itself. -/
theorem round2_unit (q : ℚ) (h0 : 0 ≤ q) (h1 : q ≤ 1) :
    0 ≤ round2 q ∧ round2 q ≤ 1 := by
  have ha : 0 ≤ roundHalfEven (q * 100) :=
    roundHalfEven_nonneg _ (by positivity)
  have hb : roundHalfEven (q * 100) ≤ (100 : ℤ) :=
    roundHalfEven_le_of_le _ 100 (by push_cast; linarith)
  rw [round2]
  constructor
  · apply div_nonneg _ (by norm_num)
    exact_mod_cast ha
  · rw [div_le_one (by norm_num)]
    exact_mod_cast hb

/-- The fallback ratio lies in the unit interval (also when the column
is empty, where rational division by zero yields zero). -/
theorem fallbackRatio_unit (c : Column) :
    0 ≤ (uniqueInclNull c : ℚ) / (c.cells.length : ℚ) ∧
    (uniqueInclNull c : ℚ) / (c.cells.length : ℚ) ≤ 1 := by
  constructor
  · positivity
  · rcases Nat.eq_zero_or_pos c.cells.length with hz | hp
    · simp [hz]
    · rw [div_le_one (by exact_mod_cast hp)]
      exact_mod_cast uniqueInclNull_le c

/-- The integrality test succeeds exactly when every successfully
parsed non-null cell passes the per-value integer test. -/
theorem allIntegral_iff (c : Column) :
    allIntegral c = true ↔
      ∀ s ∈ nonNull c, ∀ p, parseNum s = some p → isIntegerVal p = true := by
  rw [allIntegral, List.all_eq_true]
  constructor
  · intro h s hs p hp
    have h2 := h s hs
    rw [hp] at h2
    exact h2
  · intro h s hs
    cases hp : parseNum s with
    | none => rfl
    | some p => exact h s hs p hp

/-- The per-value integer test holds exactly when the denoted rational
is a mathematical integer (its reduced denominator is 1). -/
theorem isIntegerVal_den (p : ℤ × ℤ) :
    isIntegerVal p = true ↔ (ratValue p).den = 1 := by
  rw [isIntegerVal, ratValue]
  by_cases he : 0 ≤ p.2
  · rw [if_pos he]
    obtain ⟨k, hk⟩ : ∃ k : ℕ, p.2 = (k : ℤ) :=
      ⟨p.2.toNat, (Int.toNat_of_nonneg he).symm⟩
    rw [hk, zpow_natCast]
    have hcast : ((p.1 * 10 ^ k : ℤ) : ℚ) = (p.1 : ℚ) * 10 ^ k := by
      push_cast
      ring
    rw [← hcast, Rat.den_intCast]
    simp
  · rw [if_neg he]
    push_neg at he
    obtain ⟨k, hk1, hk2⟩ : ∃ k : ℕ, (-p.2).toNat = k ∧ p.2 = -(k : ℤ) :=
      ⟨(-p.2).toNat, rfl, by omega⟩
    rw [hk1, hk2, zpow_neg, zpow_natCast]
    have h10 : ((10 : ℚ) ^ k) = ((10 ^ k : ℤ) : ℚ) := by
      push_cast
      ring
    rw [h10, ← div_eq_mul_inv,
      Rat.den_div_intCast_eq_one_iff p.1 _ (by positivity),
      decide_eq_true_eq]
    exact Int.dvd_iff_emod_eq_zero.symm

/-- The integrality test succeeds exactly when every parsed non-null
value is a mathematical integer. -/
theorem allIntegral_den_iff (c : Column) :
    allIntegral c = true ↔
      ∀ s ∈ nonNull c, ∀ p, parseNum s = some p → (ratValue p).den = 1 := by
  rw [allIntegral_iff]
  constructor
  · intro h s hs p hp
    exact (isIntegerVal_den p).mp (h s hs p hp)
  · intro h s hs p hp
    exact (isIntegerVal_den p).mpr (h s hs p hp)

/-- The numeric attempt succeeds exactly when every non-null cell
parses as a number. -/
theorem numericOK_iff (c : Column) :
    numericOK c = true ↔ ∀ s ∈ nonNull c, (parseNum s).isSome = true := by
  rw [numericOK, List.all_eq_true]

/-- The numeric attempt fails as soon as one non-null cell does not
parse as a number. -/
theorem numericOK_false_of_bad (c : Column)
    (h : ∃ s ∈ nonNull c, parseNum s = none) : numericOK c = false := by
  obtain ⟨s, hs, hn⟩ := h
  cases hb : numericOK c with
  | false => rfl
  | true =>
    have h2 := (numericOK_iff c).mp hb s hs
    rw [hn] at h2
    exact absurd h2 (by simp)

/-- The datetime attempt succeeds exactly when every non-null cell
parses as a date. -/
theorem datetimeOK_iff (c : Column) :
    datetimeOK c = true ↔ ∀ s ∈ nonNull c, parseDate s = true := by
  rw [datetimeOK, List.all_eq_true]

/-- The datetime attempt fails as soon as one non-null cell does not
parse as a date. -/
theorem datetimeOK_false_of_bad (c : Column)
    (h : ∃ s ∈ nonNull c, parseDate s = false) : datetimeOK c = false := by
  obtain ⟨s, hs, hn⟩ := h
  cases hb : datetimeOK c with
  | false => rfl
  | true =>
    have h2 := (datetimeOK_iff c).mp hb s hs
    rw [hn] at h2
    exact absurd h2 (by simp)

/-- When the numeric attempt succeeds the classifier stops at the
numeric branch. -/
theorem classifyColumn_numeric (c : Column) (hn : numericOK c = true) :
    classifyColumn c =
      mkOk (if allIntegral c then Kind.integer else Kind.float)
        (sampleValues c) c.dtype (nullCount c) (uniqueCount c) none := by
  rw [classifyColumn]
  simp [hn]

/-- When the numeric attempt fails and the datetime attempt succeeds
the classifier stops at the datetime branch. -/
theorem classifyColumn_datetime (c : Column) (hn : numericOK c = false)
    (hd : datetimeOK c = true) :
    classifyColumn c =
      mkOk Kind.datetime (sampleValues c) c.dtype (nullCount c)
        (uniqueCount c) none := by
  rw [classifyColumn]
  simp [hn, hd]

/-- When both attempts fail the classifier reaches the
categorical/text fallback. -/
theorem classifyColumn_fallback (c : Column) (hn : numericOK c = false)
    (hd : datetimeOK c = false) :
    classifyColumn c =
      mkOk (if (uniqueInclNull c : ℚ) / (c.cells.length : ℚ) < 1 / 2
            then Kind.category else Kind.text)
        (sampleValues c) c.dtype (nullCount c) (uniqueCount c)
        (some (round2 ((uniqueInclNull c : ℚ) / (c.cells.length : ℚ)))) := by
  rw [classifyColumn]
  simp only [hn, hd, Bool.false_eq_true, if_false]
  split_ifs <;> rfl

/-- The classifier's result kind is always one of the five semantic
kinds, never `error`. -/
theorem classifyColumn_kind_cases (c : Column) :
    (classifyColumn c).kind = Kind.integer ∨
    (classifyColumn c).kind = Kind.float ∨
    (classifyColumn c).kind = Kind.datetime ∨
    (classifyColumn c).kind = Kind.category ∨
    (classifyColumn c).kind = Kind.text := by
  cases hn : numericOK c with
  | true =>
    rw [classifyColumn_numeric c hn]
    cases hi : allIntegral c <;> simp [hi, mkOk]
  | false =>
    cases hd : datetimeOK c with
    | true =>
      rw [classifyColumn_datetime c hn hd]
      simp [mkOk]
    | false =>
      rw [classifyColumn_fallback c hn hd]
      split_ifs <;> simp [mkOk]

/-- C1 counterexample: a validated one-column table whose column is
entirely null is classified `integer`, not `category` — the numeric
attempt succeeds vacuously and the integrality test over no values is
vacuously true, so the categorical fallback (and its division) is never
reached. -/
theorem C1_counterexample :
    validate_dataframe dfAllNull = (true, none) ∧
    infer_and_convert_types dfAllNull =
      [("a", mkOk Kind.integer [] "float64" 2 0 none)] ∧
    Kind.integer ≠ Kind.category := by
  refine ⟨by decide, by decide, by decide⟩

/-- C1 (amended): for every entirely-null column the classifier
assigns kind `integer` (via the vacuous numeric branch), with
`null_count` equal to the column's total cell count and `unique_count`
equal to 0; no division error can arise because the fallback computing
`unique_ratio` is never reached (the result carries no `unique_ratio`
field). -/
theorem C1_allNull_integer (c : Column) (h : ∀ x ∈ c.cells, x = none) :
    classifyColumn c = mkOk Kind.integer [] c.dtype c.cells.length 0 none := by
  have hnn : nonNull c = [] := by
    rw [nonNull, List.filterMap_eq_nil_iff]
    intro a ha
    rw [h a ha]
    rfl
  have hok : numericOK c = true := by
    rw [numericOK, hnn]
    rfl
  have hint : allIntegral c = true := by
    rw [allIntegral, hnn]
    rfl
  have hnc : nullCount c = c.cells.length := by
    rw [nullCount]
    congr 1
    rw [List.filter_eq_self]
    intro a ha
    rw [h a ha]
    rfl
  rw [classifyColumn_numeric c hok, hint, if_pos rfl,
    sampleValues, hnn, uniqueCount, hnn, hnc]
  rfl

/-- C1 witness: the amended statement evaluated on a concrete
three-cell all-null column. -/
theorem C1_witness :
    classifyColumn ⟨"float64", [none, none, none]⟩ =
      mkOk Kind.integer [] "float64" 3 0 none :=
  C1_allNull_integer ⟨"float64", [none, none, none]⟩ (by decide)

/-- C2 counterexample: on the column `["a", "a", null, null]` the
reported `unique_ratio` is 0.5 — `len(unique())` counts the null as a
distinct value — while the claimed formula (distinct non-null values
divided by total cells, rounded to two decimals) gives 0.25, which also
disagrees with `unique_count / row_count = 1/4`. -/
theorem C2_counterexample :
    (classifyColumn colC2).kind = Kind.text ∧
    (classifyColumn colC2).unique_ratio = some (1 / 2) ∧
    (classifyColumn colC2).unique_count = some 1 ∧
    colC2.cells.length = 4 ∧
    round2 (specUniqueRatio colC2) = 1 / 4 ∧
    ((1 : ℚ) / 2) ≠ 1 / 4 := by
  have hu : uniqueInclNull colC2 = 2 := by decide
  have hl : colC2.cells.length = 4 := by decide
  have hratio : (uniqueInclNull colC2 : ℚ) / (colC2.cells.length : ℚ) = 1 / 2 := by
    rw [hu, hl]
    norm_num
  have hcf := classifyColumn_fallback colC2 (by decide) (by decide)
  rw [hratio] at hcf
  rw [hcf, if_neg (by norm_num), mkOk]
  have huc : uniqueCount colC2 = 1 := by decide
  have hspec : specUniqueRatio colC2 = 1 / 4 := by
    rw [specUniqueRatio, huc, hl]
    norm_num
  refine ⟨rfl, ?_, by rw [huc], hl, ?_, by norm_num⟩
  · rw [round2_eval 50 (1 / 2) (by norm_num)]
    norm_num
  · rw [hspec, round2_eval 25 (1 / 4) (by norm_num)]
    norm_num

/-- C2 (amended): for every column reaching the categorical/text
fallback, the reported `unique_ratio` equals the number of distinct
values with all nulls counted as one shared value (distinct non-null
count, plus one when the column has any null) divided by the total cell
count, rounded to two decimals; it lies in [0,1]; it agrees with the
claimed distinct-non-null formula exactly when the column has no
nulls. -/
theorem C2_ratio_reported (c : Column)
    (hn : numericOK c = false) (hd : datetimeOK c = false) :
    (classifyColumn c).unique_ratio =
      some (round2 ((uniqueInclNull c : ℚ) / (c.cells.length : ℚ))) ∧
    (∀ q, (classifyColumn c).unique_ratio = some q → 0 ≤ q ∧ q ≤ 1) ∧
    (classifyColumn c).unique_count = some (uniqueCount c) ∧
    (nullCount c = 0 →
      (classifyColumn c).unique_ratio = some (round2 (specUniqueRatio c))) := by
  rw [classifyColumn_fallback c hn hd]
  have hur :
      (mkOk (if (uniqueInclNull c : ℚ) / (c.cells.length : ℚ) < 1 / 2
             then Kind.category else Kind.text)
        (sampleValues c) c.dtype (nullCount c) (uniqueCount c)
        (some (round2 ((uniqueInclNull c : ℚ) / (c.cells.length : ℚ))))).unique_ratio =
      some (round2 ((uniqueInclNull c : ℚ) / (c.cells.length : ℚ))) := by
    rw [mkOk]
  refine ⟨hur, ?_, by rw [mkOk], ?_⟩
  · intro q hq
    rw [hur] at hq
    obtain rfl : round2 ((uniqueInclNull c : ℚ) / (c.cells.length : ℚ)) = q :=
      Option.some_injective _ hq
    exact round2_unit _ (fallbackRatio_unit c).1 (fallbackRatio_unit c).2
  · intro h0
    have hnone : c.cells.any (fun x => x.isNone) = false := by
      cases ha : c.cells.any (fun x => x.isNone) with
      | false => rfl
      | true =>
        have := nullCount_pos_of_any c ha
        omega
    rw [hur, specUniqueRatio, uniqueInclNull, hnone, uniqueCount]
    norm_num

/-- C2 witness: the amended statement evaluated on the concrete column
`["a", "a", null, null]`. -/
theorem C2_witness :
    (classifyColumn colC2).unique_ratio =
      some (round2 ((uniqueInclNull colC2 : ℚ) / (colC2.cells.length : ℚ))) :=
  (C2_ratio_reported colC2 (by decide) (by decide)).1

/-- C3 counterexample: on the column `["x", "x", null, null]` the
spec's ratio (distinct non-null values / total cells) is 1/4 < 0.5, so
the claim requires kind `category`, but the code classifies it `text`
because its ratio counts the null as a distinct value (2/4 = 0.5). -/
theorem C3_counterexample :
    (classifyColumn colC3).kind = Kind.text ∧
    specUniqueRatio colC3 < 1 / 2 := by
  have hu : uniqueInclNull colC3 = 2 := by decide
  have hl : colC3.cells.length = 4 := by decide
  have hratio : (uniqueInclNull colC3 : ℚ) / (colC3.cells.length : ℚ) = 1 / 2 := by
    rw [hu, hl]
    norm_num
  have hcf := classifyColumn_fallback colC3 (by decide) (by decide)
  rw [hratio] at hcf
  have huc : uniqueCount colC3 = 1 := by decide
  constructor
  · rw [hcf, if_neg (by norm_num), mkOk]
  · rw [specUniqueRatio, huc, hl]
    norm_num

/-- C3 (amended): for every column that reaches the categorical/text
fallback, the ratio driving the decision is the number of distinct
values with all nulls counted as one shared value, divided by the
number of total cells; the column is classified `category` when this
ratio is < 0.5 and `text` otherwise, and the branch always succeeds
(the result is never an `error` record). -/
theorem C3_fallback_decision (c : Column)
    (hn : numericOK c = false) (hd : datetimeOK c = false) :
    (classifyColumn c).kind =
      (if (uniqueInclNull c : ℚ) / (c.cells.length : ℚ) < 1 / 2
       then Kind.category else Kind.text) ∧
    (classifyColumn c).kind ≠ Kind.error ∧
    (classifyColumn c).err_msg = none := by
  rw [classifyColumn_fallback c hn hd]
  refine ⟨by rw [mkOk], ?_, by rw [mkOk]⟩
  rw [mkOk]
  split_ifs <;> simp

/-- C3 witness: the amended statement evaluated on the concrete column
`["x", "x", null, null]`, whose ratio 1/2 is not below the threshold,
yielding `text`. -/
theorem C3_witness :
    (classifyColumn colC3).kind = Kind.text := by
  have h := (C3_fallback_decision colC3 (by decide) (by decide)).1
  have hu : uniqueInclNull colC3 = 2 := by decide
  have hl : colC3.cells.length = 4 := by decide
  rw [h, hu, hl, if_neg (by norm_num)]

/-- C4: for every table passing validation, the engine returns exactly
one result per column, keyed and ordered as the table's columns; for
any per-column classifier (modelling code that may raise), a failure on
one column is recorded inline as an `error`-kind entry with the message
for that column, and the entry of each column depends only on the
classifier's behaviour on that column, so one failure never disturbs
the other columns or aborts the report. -/
theorem C4_engine (df : DataFrame) (f g : Column → Except String ColResult)
    (h : validate_dataframe df = (true, none)) :
    ((infer_and_convert_types df).map Prod.fst = df.cols.map Prod.fst ∧
      (infer_and_convert_types df).length = df.cols.length) ∧
    ((inferWith f df).map Prod.fst = df.cols.map Prod.fst) ∧
    (∀ (i : ℕ) (p : String × Column), df.cols[i]? = some p →
      ∀ e, f p.2 = Except.error e →
        (inferWith f df)[i]? = some (p.1, mkErr e)) ∧
    (∀ (i : ℕ) (p : String × Column), df.cols[i]? = some p →
      f p.2 = g p.2 →
        (inferWith f df)[i]? = (inferWith g df)[i]?) := by
  refine ⟨⟨?_, ?_⟩, ?_, ?_, ?_⟩
  · rw [infer_and_convert_types, inferWith, List.map_map]
    rfl
  · rw [infer_and_convert_types, inferWith, List.length_map]
  · rw [inferWith, List.map_map]
    rfl
  · intro i p hp e he
    rw [inferWith, List.getElem?_map, hp, Option.map_some', applyCatch, he]
  · intro i p hp hfg
    rw [inferWith, inferWith, List.getElem?_map, List.getElem?_map, hp,
      Option.map_some', Option.map_some', applyCatch, applyCatch, hfg]

/-- C4 witness: on the validated two-column table, a classifier that
raises on the second column yields an inline `error` entry there while
the first column's entry is the normal classification. -/
theorem C4_witness :
    (inferWith
      (fun c => if c = colText then Except.error "boom"
                else Except.ok (classifyColumn c)) dfTwo)[1]? =
        some ("b", mkErr "boom") ∧
    (inferWith
      (fun c => if c = colText then Except.error "boom"
                else Except.ok (classifyColumn c)) dfTwo)[0]? =
      (inferWith (fun c => Except.ok (classifyColumn c)) dfTwo)[0]? := by
  have h := C4_engine dfTwo
    (fun c => if c = colText then Except.error "boom"
              else Except.ok (classifyColumn c))
    (fun c => Except.ok (classifyColumn c)) (by decide)
  refine ⟨h.2.2.1 1 ("b", colText) (by decide) "boom" ?_, ?_⟩
  · show (if colText = colText then Except.error "boom"
          else Except.ok (classifyColumn colText)) = Except.error "boom"
    rw [if_pos rfl]
  · refine h.2.2.2 0 ("a", colInt) (by decide) ?_
    show (if colInt = colText then Except.error "boom"
          else Except.ok (classifyColumn colInt)) =
        Except.ok (classifyColumn colInt)
    rw [if_neg (by decide)]

/-- C5: a column in which every non-null cell parses as a number is
classified `integer` when every parsed value is mathematically an
integer and `float` otherwise; as soon as any non-null cell fails the
numeric parse, the whole numeric branch is abandoned — the column is
never classified `integer` or `float`, evaluation falling through to
the later branches. -/
theorem C5_numeric (c : Column) :
    ((∀ s ∈ nonNull c, (parseNum s).isSome = true) →
      (classifyColumn c).kind =
        (if ∀ s ∈ nonNull c, ∀ p, parseNum s = some p → (ratValue p).den = 1
         then Kind.integer else Kind.float)) ∧
    ((∃ s ∈ nonNull c, parseNum s = none) →
      (classifyColumn c).kind ≠ Kind.integer ∧
      (classifyColumn c).kind ≠ Kind.float) := by
  constructor
  · intro hall
    have hok : numericOK c = true := (numericOK_iff c).mpr hall
    rw [classifyColumn_numeric c hok]
    by_cases hi : ∀ s ∈ nonNull c, ∀ p, parseNum s = some p → (ratValue p).den = 1
    · rw [if_pos hi, (allIntegral_den_iff c).mpr hi, if_pos rfl, mkOk]
    · rw [if_neg hi]
      have hai : allIntegral c = false := by
        cases ha : allIntegral c with
        | false => rfl
        | true => exact absurd ((allIntegral_den_iff c).mp ha) hi
      rw [hai, if_neg (by simp), mkOk]
  · intro hbad
    have hok : numericOK c = false := numericOK_false_of_bad c hbad
    cases hd : datetimeOK c with
    | true =>
      rw [classifyColumn_datetime c hok hd, mkOk]
      exact ⟨by simp, by simp⟩
    | false =>
      rw [classifyColumn_fallback c hok hd, mkOk]
      constructor <;> split_ifs <;> simp

/-- C5 witness: the integral column `["1","2","3"]` is classified
`integer`, the column `["1","2.5","3"]` is classified `float`, and a
non-numeric column is never classified `integer`. -/
theorem C5_witness :
    (classifyColumn colInt).kind = Kind.integer ∧
    (classifyColumn colFloat).kind = Kind.float ∧
    (classifyColumn colText).kind ≠ Kind.integer := by
  refine ⟨?_, ?_, ?_⟩
  · rw [(C5_numeric colInt).1 (by decide),
      if_pos ((allIntegral_den_iff colInt).mp (by decide))]
  · rw [(C5_numeric colFloat).1 (by decide), if_neg ?_]
    intro hp
    have h2 := (allIntegral_den_iff colFloat).mpr hp
    have h3 : allIntegral colFloat = false := by decide
    rw [h3] at h2
    cases h2
  · exact ((C5_numeric colText).2 ⟨"apple", by decide, by decide⟩).1

/-- C6: the datetime branch runs only when the numeric branch failed; a
column that failed the numeric attempt and whose non-null cells all
parse as dates is classified `datetime` and never `text`; when some
non-null cell fails the date parse as well, evaluation falls through to
the categorical/text fallback. -/
theorem C6_datetime (c : Column) :
    ((∃ s ∈ nonNull c, parseNum s = none) →
      (∀ s ∈ nonNull c, parseDate s = true) →
      (classifyColumn c).kind = Kind.datetime ∧
      (classifyColumn c).kind ≠ Kind.text) ∧
    ((∀ s ∈ nonNull c, (parseNum s).isSome = true) →
      (classifyColumn c).kind ≠ Kind.datetime) ∧
    ((∃ s ∈ nonNull c, parseNum s = none) →
      (∃ s ∈ nonNull c, parseDate s = false) →
      ((classifyColumn c).kind = Kind.category ∨
       (classifyColumn c).kind = Kind.text)) := by
  refine ⟨?_, ?_, ?_⟩
  · intro hbad hdate
    have hok : numericOK c = false := numericOK_false_of_bad c hbad
    have hd : datetimeOK c = true := (datetimeOK_iff c).mpr hdate
    rw [classifyColumn_datetime c hok hd, mkOk]
    exact ⟨rfl, by simp⟩
  · intro hall
    have hok : numericOK c = true := (numericOK_iff c).mpr hall
    rw [classifyColumn_numeric c hok, mkOk]
    split_ifs <;> simp
  · intro hbad hdbad
    have hok : numericOK c = false := numericOK_false_of_bad c hbad
    have hd : datetimeOK c = false := datetimeOK_false_of_bad c hdbad
    rw [classifyColumn_fallback c hok hd, mkOk]
    split_ifs <;> simp

/-- C6 witness: the ISO-date column `["2023-01-01","2023-02-01"]` is
classified `datetime` and not `text`; the integral column cannot be
classified `datetime`. -/
theorem C6_witness :
    (classifyColumn colDate).kind = Kind.datetime ∧
    (classifyColumn colDate).kind ≠ Kind.text ∧
    (classifyColumn colInt).kind ≠ Kind.datetime := by
  have h1 := (C6_datetime colDate).1 ⟨"2023-01-01", by decide, by decide⟩
    (by decide)
  exact ⟨h1.1, h1.2, (C6_datetime colInt).2.1 (by decide)⟩

/-- C7: validation performs its four checks in order, short-circuiting
on the first failure — emptiness (no rows or no columns), the 100
column cap, the 1,000,000 row cap, duplicate column names — a table
with duplicate column names is always rejected whatever its cells
contain, and a table passing all four checks is accepted. -/
theorem C7_validation (df : DataFrame) :
    ((df.nrows = 0 ∨ df.cols.length = 0) →
      validate_dataframe df = (false, some "The file is empty")) ∧
    (df.nrows ≠ 0 → df.cols.length ≠ 0 → df.cols.length > MAX_COLUMNS →
      validate_dataframe df =
        (false, some "Too many columns. Maximum allowed: 100")) ∧
    (df.nrows ≠ 0 → df.cols.length ≠ 0 → df.cols.length ≤ MAX_COLUMNS →
      df.nrows > MAX_ROWS →
      validate_dataframe df =
        (false, some "Too many rows. Maximum allowed: 1000000")) ∧
    (df.nrows ≠ 0 → df.cols.length ≠ 0 → df.cols.length ≤ MAX_COLUMNS →
      df.nrows ≤ MAX_ROWS → ¬ (df.cols.map Prod.fst).Nodup →
      validate_dataframe df = (false, some "Duplicate column names found")) ∧
    (¬ (df.cols.map Prod.fst).Nodup → (validate_dataframe df).1 = false) ∧
    (df.nrows ≠ 0 → df.cols.length ≠ 0 → df.cols.length ≤ MAX_COLUMNS →
      df.nrows ≤ MAX_ROWS → (df.cols.map Prod.fst).Nodup →
      validate_dataframe df = (true, none)) := by
  refine ⟨?_, ?_, ?_, ?_, ?_, ?_⟩
  · intro h
    rw [validate_dataframe, if_pos h]
  · intro h1 h2 h3
    rw [validate_dataframe, if_neg (by tauto), if_pos h3]
  · intro h1 h2 h3 h4
    rw [validate_dataframe, if_neg (by tauto), if_neg (by omega), if_pos h4]
  · intro h1 h2 h3 h4 h5
    rw [validate_dataframe, if_neg (by tauto), if_neg (by omega),
      if_neg (by omega), if_pos h5]
  · intro h5
    rw [validate_dataframe]
    split_ifs <;> rfl
  · intro h1 h2 h3 h4 h5
    rw [validate_dataframe, if_neg (by tauto), if_neg (by omega),
      if_neg (by omega), if_neg (by simp [h5])]

/-- C7 witness: the table with columns named a, a, b and one data row
is rejected with the duplicate-names message; the valid two-column
table is accepted. -/
theorem C7_witness :
    validate_dataframe dfDup = (false, some "Duplicate column names found") ∧
    validate_dataframe dfTwo = (true, none) := by
  constructor
  · exact (C7_validation dfDup).2.2.2.1 (by decide) (by decide)
      (by decide) (by decide) (by decide)
  · exact (C7_validation dfTwo).2.2.2.2.2 (by decide) (by decide)
      (by decide) (by decide) (by decide)

/-- C8: a table exceeding the column cap or the row cap is rejected at
validation with a bad-request response, and the inference engine is
never invoked: the response is the same whatever engine is plugged into
the processing pipeline. -/
theorem C8_reject (df : DataFrame) (fname : String) (fsize : ℕ)
    (f g : DataFrame → List (String × ColResult))
    (h : df.cols.length > MAX_COLUMNS ∨ df.nrows > MAX_ROWS) :
    (∃ msg, process_file fname fsize df = Response.badRequest msg) ∧
    processTableWith f fname fsize df = processTableWith g fname fsize df := by
  have hvf : (validate_dataframe df).1 = false := by
    rw [validate_dataframe]
    rw [MAX_COLUMNS, MAX_ROWS] at h
    split_ifs with h1 h2 h3 h4 <;>
      first
        | rfl
        | (exfalso
           rw [MAX_COLUMNS] at h2
           rw [MAX_ROWS] at h3
           omega)
  constructor
  · refine ⟨(validate_dataframe df).2.getD "", ?_⟩
    rw [process_file, processTableWith, if_neg (by rw [hvf]; simp)]
  · rw [processTableWith, processTableWith,
      if_neg (by rw [hvf]; simp), if_neg (by rw [hvf]; simp)]

/-- C8 witness: the 101-column table is rejected with a bad-request
response by the real pipeline. -/
theorem C8_witness :
    ∃ msg, process_file "data.csv" 10 dfWide = Response.badRequest msg :=
  (C8_reject dfWide "data.csv" 10 infer_and_convert_types
    infer_and_convert_types
    (Or.inl (by rw [dfWide]; simp [MAX_COLUMNS]))).1

/-- C9: extension checking in `validate_file` is case-insensitive and
happens before the size check: a present file whose lower-cased
`os.path.splitext` extension is not exactly `.csv` is rejected with the
invalid-file-type message no matter its size, while a file with
extension `.csv` (in any letter case) is never rejected for its type
and is accepted outright when within the size cap. -/
theorem C9_extension (f : FileObj) :
    (strLower (splitextExt f.name) ≠ ".csv" →
      validate_file (some f) =
        (false, some "Invalid file type. Allowed types: .csv")) ∧
    (strLower (splitextExt f.name) = ".csv" → f.size ≤ MAX_FILE_SIZE →
      validate_file (some f) = (true, none)) ∧
    (strLower (splitextExt f.name) = ".csv" →
      validate_file (some f) ≠
        (false, some "Invalid file type. Allowed types: .csv")) := by
  refine ⟨?_, ?_, ?_⟩
  · intro hne
    rw [validate_file, if_pos (by simp [ALLOWED_EXTENSIONS, hne])]
  · intro he hs
    rw [validate_file, if_neg (by simp [ALLOWED_EXTENSIONS, he]),
      if_neg (by omega)]
  · intro he
    rw [validate_file, if_neg (by simp [ALLOWED_EXTENSIONS, he])]
    split_ifs <;> simp

/-- C9 witness: `DATA.CSV` and `data.Csv` pass the extension check and
are accepted, while `data.txt` is rejected with the invalid-file-type
message even though its size is within the cap. -/
theorem C9_witness :
    validate_file (some ⟨"DATA.CSV", 100⟩) = (true, none) ∧
    validate_file (some ⟨"data.Csv", 100⟩) = (true, none) ∧
    validate_file (some ⟨"data.txt", 100⟩) =
      (false, some "Invalid file type. Allowed types: .csv") := by
  refine ⟨?_, ?_, ?_⟩
  · exact (C9_extension ⟨"DATA.CSV", 100⟩).2.1 (by decide) (by decide)
  · exact (C9_extension ⟨"data.Csv", 100⟩).2.1 (by decide) (by decide)
  · exact (C9_extension ⟨"data.txt", 100⟩).1 (by decide)

/-- C10: for every table that passes structural validation, every
column has as many cells as the table has rows, and that count is
positive — so the denominator `len(df[column])` in the fallback's
`unique_ratio` division is a nonzero rational and a division-by-zero
error is unreachable for every column. -/
theorem C10_denominator (df : DataFrame)
    (h : validate_dataframe df = (true, none)) :
    ∀ p ∈ df.cols, p.2.cells.length = df.nrows ∧ 0 < p.2.cells.length ∧
      ((p.2.cells.length : ℚ) ≠ 0) := by
  have hne : ¬ (df.nrows = 0 ∨ df.cols.length = 0) := by
    intro hc
    rw [validate_dataframe, if_pos hc] at h
    cases h
  intro p hp
  have hlen : p.2.cells.length = df.nrows := df.uniform p hp
  have hpos : 0 < p.2.cells.length := by
    rw [hlen]
    omega
  refine ⟨hlen, hpos, ?_⟩
  exact_mod_cast Nat.pos_iff_ne_zero.mp hpos

/-- C10 witness: in the validated two-column table the first column
has three cells, a positive count. -/
theorem C10_witness :
    colInt.cells.length = dfTwo.nrows ∧ 0 < colInt.cells.length :=
  ⟨(C10_denominator dfTwo (by decide) ("a", colInt) (by decide)).1,
   (C10_denominator dfTwo (by decide) ("a", colInt) (by decide)).2.1⟩

end CsvApi
